import Mathlib

/-!
Verification development for the weather query program.

The embedding models, over exact rationals (`ℚ`) in place of IEEE doubles:
* `temperature.py`: `celsius`, `fahrenheit`, `calc_heat_index`, `calc_wind_chill`;
* `data_processing.py`: the extremum scan `_process_curr_item` and the
  per-metric query functions (`air_temperature`, `feels_like_temperature`,
  `humidity`, `wind_speed`, `chance_of_precipitation`), the geocoding
  extraction `get_latitude_and_longitude`, the polygon averaging
  `determine_forecast_location`, wind-speed string parsing
  `_simplify_wind_speed` and the UTC conversion `_datetime_to_utc`;
* `weather_stealer_usa_3000.py`: the window clamp of `_get_query_results`
  together with `_available_num_of_time_periods`.

Timestamps are modelled as already-parsed timezone-aware datetimes
(`OffsetDateTime`); Python's `datetime.fromisoformat` parsing of the ISO 8601
`startTime` strings is outside the model. Fallible operations (list indexing,
`float()` coercion, missing data) are modelled with `Option` / `Except`.
-/

namespace WeatherStealer

/-- From `temperature.celsius`: `(temp_in_fahr - 32) * (5 / 9)`. -/
def celsius (tempInFahr : ℚ) : ℚ :=
  (tempInFahr - 32) * (5 / 9)

/-- From `temperature.fahrenheit`: `(temp_in_cels * (9 / 5)) + 32`. -/
def fahrenheit (tempInCels : ℚ) : ℚ :=
  (tempInCels * (9 / 5)) + 32

/-- From `temperature.calc_heat_index`: builds the list `heat_index_parts` and
sums it with a running accumulator (the Python `for arg in heat_index_parts`
loop). -/
def calc_heat_index (t h : ℚ) : ℚ :=
  let heatIndexParts : List ℚ :=
    [ -42.379,
      2.04901523 * t,
      10.14333127 * h,
      -0.22475541 * t * h,
      -0.00683783 * t * t,
      -0.05481717 * h * h,
      0.00122874 * t * t * h,
      0.00085282 * t * h * h,
      -0.00000199 * t * t * h * h ]
  heatIndexParts.foldl (fun acc p => acc + p) 0

/-- From `temperature.calc_wind_chill`: builds the list `wind_chill_parts` and
sums it with a running accumulator. Python computes `w ** 0.16` in floating
point; that fractional power has no exact rational counterpart, so the
embedding receives the power function as a parameter `fpow016` (standing for
`fun w => w ** 0.16`) and treats the value `fpow016 w` as opaque. -/
def calc_wind_chill (fpow016 : ℚ → ℚ) (t w : ℚ) : ℚ :=
  let windChillParts : List ℚ :=
    [ 35.74,
      0.6215 * t,
      -35.75 * fpow016 w,
      0.4275 * t * fpow016 w ]
  windChillParts.foldl (fun acc p => acc + p) 0

/-- From `data_processing._process_curr_item`. The Python function receives the
running best value and its datetime as two parameters that are `None` together
on the first iteration; the embedding packs them into one `Option` pair. The
update condition is the literal translation of
`(target == None) or (limit == 'MAX' and curr > target) or (limit == 'MIN' and curr < target)`. -/
def _process_curr_item {α : Type} (curr : ℚ) (currDatetime : α)
    (target : Option (ℚ × α)) (limit : String) : ℚ × α :=
  match target with
  | none => (curr, currDatetime)
  | some (targetVal, targetDatetime) =>
      if (limit = "MAX" ∧ curr > targetVal) ∨ (limit = "MIN" ∧ curr < targetVal) then
        (curr, currDatetime)
      else
        (targetVal, targetDatetime)

/-- The `for i in range(length)` loop shared by the five query functions of
`data_processing.py`, with the running best as explicit accumulator: each
element is fed to `_process_curr_item` in order. -/
def extremumScanFrom {α : Type} (limit : String) :
    Option (ℚ × α) → List (ℚ × α) → Option (ℚ × α)
  | acc, [] => acc
  | acc, (v, dt) :: rest =>
      extremumScanFrom limit (some (_process_curr_item v dt acc limit)) rest

/-- The extremum scan started from the initial Python state
`target_temp = None; target_datetime = None`. -/
def extremumScan {α : Type} (limit : String) (seq : List (ℚ × α)) : Option (ℚ × α) :=
  extremumScanFrom limit none seq

/-- A timezone-aware datetime, the model of the `datetime.datetime` values that
`datetime.fromisoformat` produces from the forecast `startTime` strings.
`offsetMinutes` is the UTC offset east of Greenwich (for `-08:00` it is
`-480`). -/
structure OffsetDateTime where
  year : Int
  month : Int
  day : Int
  hour : Int
  minute : Int
  second : Int
  offsetMinutes : Int
deriving DecidableEq, Repr

/-- Days since 1970-01-01 of a proleptic-Gregorian civil date (the calendar
`datetime` uses). Lean's `/` on `Int` rounds toward minus infinity for the
positive divisors used here. -/
def daysFromCivil (y m d : Int) : Int :=
  let yAdj := if m ≤ 2 then y - 1 else y
  let era := yAdj / 400
  let yoe := yAdj - era * 400
  let mp := if m > 2 then m - 3 else m + 9
  let doy := (153 * mp + 2) / 5 + d - 1
  let doe := yoe * 365 + yoe / 4 - yoe / 100 + doy
  era * 146097 + doe - 719468

/-- Civil date `(year, month, day)` of a day count since 1970-01-01, inverse of
`daysFromCivil` on the proleptic Gregorian calendar. -/
def civilFromDays (z : Int) : Int × Int × Int :=
  let zs := z + 719468
  let era := zs / 146097
  let doe := zs - era * 146097
  let yoe := (doe - doe / 1460 + doe / 36524 - doe / 146096) / 365
  let y := yoe + era * 400
  let doy := doe - (365 * yoe + yoe / 4 - yoe / 100)
  let mp := (5 * doy + 2) / 153
  let d := doy - (153 * mp + 2) / 5 + 1
  let m := if mp < 10 then mp + 3 else mp - 9
  (if m ≤ 2 then y + 1 else y, m, d)

/-- The instant an `OffsetDateTime` denotes, as seconds since the Unix epoch:
the wall-clock fields minus the UTC offset. -/
def epochSeconds (dt : OffsetDateTime) : Int :=
  86400 * daysFromCivil dt.year dt.month dt.day
    + 3600 * dt.hour + 60 * dt.minute + dt.second - 60 * dt.offsetMinutes

/-- The UTC civil representation of an epoch instant (what
`astimezone(datetime.timezone.utc)` yields). `%` on `Int` is the nonnegative
remainder, so `secondOfDay` lies in `[0, 86400)`. -/
def utcOfEpoch (s : Int) : OffsetDateTime :=
  let days := s / 86400
  let secondOfDay := s % 86400
  let c := civilFromDays days
  { year := c.1, month := c.2.1, day := c.2.2,
    hour := secondOfDay / 3600,
    minute := secondOfDay % 3600 / 60,
    second := secondOfDay % 60,
    offsetMinutes := 0 }

/-- Zero-padded two-digit field of `strftime`. -/
def pad2 (n : Int) : String :=
  if n < 10 then "0" ++ toString n else toString n

/-- Zero-padded four-digit year of `strftime('%Y')`. -/
def pad4 (n : Int) : String :=
  if n < 10 then "000" ++ toString n
  else if n < 100 then "00" ++ toString n
  else if n < 1000 then "0" ++ toString n
  else toString n

/-- From `data_processing._datetime_to_utc`: convert the datetime to UTC and
render it with `strftime('%Y-%m-%dT%H:%M:%SZ')`. -/
def _datetime_to_utc (dt : OffsetDateTime) : String :=
  let u := utcOfEpoch (epochSeconds dt)
  pad4 u.year ++ "-" ++ pad2 u.month ++ "-" ++ pad2 u.day ++ "T"
    ++ pad2 u.hour ++ ":" ++ pad2 u.minute ++ ":" ++ pad2 u.second ++ "Z"

/-- Rounding to the nearest integer with ties to even, the rounding Python's
fixed-point float formatting performs. -/
def roundHalfEven (q : ℚ) : Int :=
  let f : Int := ⌊q⌋
  let r : ℚ := q - f
  if r < 1 / 2 then f
  else if 1 / 2 < r then f + 1
  else if f % 2 = 0 then f else f + 1

/-- The decimal digit character for `n % 10`. -/
def digitChar (n : Nat) : Char :=
  Char.ofNat (48 + n % 10)

/-- The four zero-padded decimal digits of `n % 10000`, the fractional part a
`.4f` format produces. -/
def frac4 (n : Nat) : String :=
  String.mk [digitChar (n / 1000), digitChar (n / 100), digitChar (n / 10), digitChar n]

/-- Model of the Python f-string format specifier `:.4f`: round the magnitude
to four decimal places (ties to even), print sign, integer part, a dot and
exactly four fractional digits. -/
def formatVal (q : ℚ) : String :=
  let n := (roundHalfEven (|q| * 10000)).toNat
  (if q < 0 then "-" else "") ++ toString (n / 10000) ++ "." ++ frac4 (n % 10000)

/-- Numeric value of a list of decimal digit characters (most significant
first). -/
def natOfDigits (cs : List Char) : Nat :=
  cs.foldl (fun acc c => 10 * acc + (c.toNat - 48)) 0

/-- Model of Python `float()` on the decimal strings this program feeds it: an
optional leading minus sign, integer digits, optionally a dot and fractional
digits, at least one digit overall. (The wider `float()` grammar — exponents,
infinities, surrounding whitespace — never arises from the consumed JSON
fields and is not modelled.) Returns `none` where `float()` raises
`ValueError`. -/
def parseDecimal (s : String) : Option ℚ :=
  let cs := s.data
  let neg : Bool := cs.head? = some '-'
  let cs1 := if neg then cs.tail else cs
  let ip := cs1.takeWhile Char.isDigit
  let rest := cs1.dropWhile Char.isDigit
  let fp? : Option (List Char) :=
    match rest with
    | [] => some []
    | c :: frac => if c = '.' ∧ frac.all Char.isDigit then some frac else none
  match fp? with
  | none => none
  | some fp =>
      if ip.isEmpty ∧ fp.isEmpty then none
      else
        let magnitude : ℚ :=
          (natOfDigits ip : ℚ) + (natOfDigits fp : ℚ) / (10 : ℚ) ^ fp.length
        some (if neg then -magnitude else magnitude)

/-- From `data_processing._simplify_wind_speed`: take the text before the first
space of the `'<number> mph'` string and coerce it with `float()`. -/
def _simplify_wind_speed (windSpeedData : String) : Option ℚ :=
  match windSpeedData.splitOn " " with
  | [] => none
  | speed :: _ => parseDecimal speed

/-- One NWS forecast period, holding the fields the program reads:
`startTime` (parsed), `temperature` (°F), `relativeHumidity.value`,
`windSpeed` (the raw `'<number> mph'` string) and
`probabilityOfPrecipitation.value`. -/
structure ForecastPeriod where
  startTime : OffsetDateTime
  temperature : ℚ
  relativeHumidity : ℚ
  windSpeed : String
  probabilityOfPrecipitation : ℚ
deriving DecidableEq, Repr

/-- From `data_processing.air_temperature`: scan the first `length` periods,
converting each temperature to Celsius when `scale = 'C'`, and render the
winning datetime (in UTC) and value. Returns `none` where Python raises: when
`length` exceeds the period count (`IndexError` in the loop) or the scanned
window is empty (`target_datetime` is still `None` at the format step). -/
def air_temperature (data : List ForecastPeriod) (scale : String) (length : Nat)
    (limit : String) : Option String :=
  if length ≤ data.length then
    match extremumScan limit ((data.take length).map fun p =>
        ((if scale = "C" then celsius p.temperature else p.temperature), p.startTime)) with
    | some (v, dt) => some (_datetime_to_utc dt ++ " " ++ formatVal v)
    | none => none
  else none

/-- The per-iteration branch of `data_processing.feels_like_temperature`
selecting between heat index, wind chill and the raw reading:
`if curr_temp >= 68: ... elif curr_temp <= 50 and curr_wind > 3: ...`. -/
def feelsSelect (fpow016 : ℚ → ℚ) (currTemp currHumidity currWind : ℚ) : ℚ :=
  if currTemp ≥ 68 then calc_heat_index currTemp currHumidity
  else if currTemp ≤ 50 ∧ currWind > 3 then calc_wind_chill fpow016 currTemp currWind
  else currTemp

/-- The full per-iteration transform of `feels_like_temperature`: branch
selection on the raw Fahrenheit reading, then the `scale == 'C'` conversion. -/
def feelsLikeValue (fpow016 : ℚ → ℚ) (scale : String)
    (currTemp currHumidity currWind : ℚ) : ℚ :=
  let t := feelsSelect fpow016 currTemp currHumidity currWind
  if scale = "C" then celsius t else t

/-- From `data_processing.feels_like_temperature`: scan the first `length`
periods with the feels-like transform. `none` where Python raises (window
bounds, empty window, or a wind-speed string `float()` cannot parse). -/
def feels_like_temperature (fpow016 : ℚ → ℚ) (data : List ForecastPeriod)
    (scale : String) (length : Nat) (limit : String) : Option String :=
  if length ≤ data.length then
    match (data.take length).mapM (fun p =>
        (_simplify_wind_speed p.windSpeed).map fun w =>
          (feelsLikeValue fpow016 scale p.temperature p.relativeHumidity w, p.startTime)) with
    | none => none
    | some vals =>
        match extremumScan limit vals with
        | some (v, dt) => some (_datetime_to_utc dt ++ " " ++ formatVal v)
        | none => none
  else none

/-- From `data_processing.humidity`: scan `relativeHumidity.value` and append
the literal `%` to the formatted value. -/
def humidity (data : List ForecastPeriod) (length : Nat) (limit : String) :
    Option String :=
  if length ≤ data.length then
    match extremumScan limit ((data.take length).map fun p =>
        (p.relativeHumidity, p.startTime)) with
    | some (v, dt) => some (_datetime_to_utc dt ++ " " ++ formatVal v ++ "%")
    | none => none
  else none

/-- From `data_processing.wind_speed`: scan the parsed wind speeds. -/
def wind_speed (data : List ForecastPeriod) (length : Nat) (limit : String) :
    Option String :=
  if length ≤ data.length then
    match (data.take length).mapM (fun p =>
        (_simplify_wind_speed p.windSpeed).map fun w => (w, p.startTime)) with
    | none => none
    | some vals =>
        match extremumScan limit vals with
        | some (v, dt) => some (_datetime_to_utc dt ++ " " ++ formatVal v)
        | none => none
  else none

/-- From `data_processing.chance_of_precipitation`: scan
`probabilityOfPrecipitation.value` and append the literal `%`. -/
def chance_of_precipitation (data : List ForecastPeriod) (length : Nat)
    (limit : String) : Option String :=
  if length ≤ data.length then
    match extremumScan limit ((data.take length).map fun p =>
        (p.probabilityOfPrecipitation, p.startTime)) with
    | some (v, dt) => some (_datetime_to_utc dt ++ " " ++ formatVal v ++ "%")
    | none => none
  else none

/-- From `weather_stealer_usa_3000._available_num_of_time_periods`:
`len(forecast_data['properties']['periods'])`. -/
def _available_num_of_time_periods (forecastData : List ForecastPeriod) : Nat :=
  forecastData.length

/-- The TEMPERATURE AIR path of `weather_stealer_usa_3000._get_query_results`:
`length = min(length, _available_num_of_time_periods(forecast_data))` followed
by the call to `data_processing.air_temperature`. (The surrounding query-string
splitting is plain text glue and is not modelled.) -/
def airTemperatureQuery (forecastData : List ForecastPeriod) (scale : String)
    (requested : Nat) (limit : String) : Option String :=
  air_temperature forecastData scale
    (min requested (_available_num_of_time_periods forecastData)) limit

/-- The TEMPERATURE FEELS path of `_get_query_results`: the same clamp
followed by the call to `data_processing.feels_like_temperature`. -/
def feelsLikeTemperatureQuery (fpow016 : ℚ → ℚ) (forecastData : List ForecastPeriod)
    (scale : String) (requested : Nat) (limit : String) : Option String :=
  feels_like_temperature fpow016 forecastData scale
    (min requested (_available_num_of_time_periods forecastData)) limit

/-- The HUMIDITY path of `_get_query_results`: the clamp at the non-temperature
branch followed by the call to `data_processing.humidity`. -/
def humidityQuery (forecastData : List ForecastPeriod) (requested : Nat)
    (limit : String) : Option String :=
  humidity forecastData
    (min requested (_available_num_of_time_periods forecastData)) limit

/-- The WIND path of `_get_query_results`: the clamp at the non-temperature
branch followed by the call to `data_processing.wind_speed`. -/
def windSpeedQuery (forecastData : List ForecastPeriod) (requested : Nat)
    (limit : String) : Option String :=
  wind_speed forecastData
    (min requested (_available_num_of_time_periods forecastData)) limit

/-- The PRECIPITATION path of `_get_query_results`: the clamp at the
non-temperature branch followed by the call to
`data_processing.chance_of_precipitation`. -/
def precipitationQuery (forecastData : List ForecastPeriod) (requested : Nat)
    (limit : String) : Option String :=
  chance_of_precipitation forecastData
    (min requested (_available_num_of_time_periods forecastData)) limit

/-- A JSON scalar as found in the geocoding `lat` / `lon` fields: Nominatim
returns them as strings, test files may hold numbers. -/
inductive JVal where
  | str : String → JVal
  | num : ℚ → JVal
deriving DecidableEq, Repr

/-- The Python exceptions relevant to `get_latitude_and_longitude`:
`IndexError` from `geocoding_data[0]` on an empty list and `ValueError` from
`float()` on a malformed string. `notFoundError` models the `NotFoundError`
the specification names; no code path raises it. -/
inductive PyError where
  | indexError
  | notFoundError
  | valueError
deriving DecidableEq, Repr

/-- Model of Python `float()` on a JSON scalar: numbers pass through, strings
are parsed, failure is `ValueError`. -/
def pyFloat : JVal → Except PyError ℚ
  | JVal.num q => Except.ok q
  | JVal.str s =>
      match parseDecimal s with
      | some q => Except.ok q
      | none => Except.error PyError.valueError

/-- One entry of the forward-geocoding result list, holding the two fields the
program reads. -/
structure GeocodeEntry where
  lat : JVal
  lon : JVal
deriving DecidableEq, Repr

/-- From `data_processing.get_latitude_and_longitude`:
`geocoding_data[0]['lat']`, `geocoding_data[0]['lon']`, then
`float(latitude), float(longitude)`. Indexing an empty list raises
`IndexError`. -/
def get_latitude_and_longitude (geocodingData : List GeocodeEntry) :
    Except PyError (ℚ × ℚ) :=
  match geocodingData with
  | [] => Except.error PyError.indexError
  | e :: _ =>
      match pyFloat e.lat with
      | Except.error err => Except.error err
      | Except.ok latitude =>
          match pyFloat e.lon with
          | Except.error err => Except.error err
          | Except.ok longitude => Except.ok (latitude, longitude)

/-- From `data_processing.determine_forecast_location`: collapse duplicate
coordinate pairs (the Python `set` of tuples — modelled by `List.dedup`, which
keeps one copy of each pair; over `ℚ` the subsequent sums do not depend on
iteration order), sum `coordinate[0]` into `lon_sum` and `coordinate[1]` into
`lat_sum`, and return `(lat_sum / count, lon_sum / count)`. GeoJSON polygon
coordinates are `(longitude, latitude)` pairs. -/
def determine_forecast_location (polygonCoords : List (ℚ × ℚ)) : ℚ × ℚ :=
  let uniqueCoords := polygonCoords.dedup
  let lonSum := (uniqueCoords.map fun c => c.1).sum
  let latSum := (uniqueCoords.map fun c => c.2).sum
  (latSum / uniqueCoords.length, lonSum / uniqueCoords.length)

/-- Modelled from the spec, for comparison with `determine_forecast_location`:
"dedupe vertices (as exact coordinate pairs), then arithmetic-mean the
latitudes and mean the longitudes independently" — the vertex set as a
`Finset`, each mean as its sum divided by its cardinality. -/
def centroidOf (polygonCoords : List (ℚ × ℚ)) : ℚ × ℚ :=
  let s := polygonCoords.toFinset
  ((s.sum fun c => c.2) / s.card, (s.sum fun c => c.1) / s.card)

/-- First period of the end-to-end example of the specification:
`startTime = 2023-01-01T00:00:00-08:00`, `temperature = 70`. -/
def examplePeriod1 : ForecastPeriod :=
  { startTime := ⟨2023, 1, 1, 0, 0, 0, -480⟩,
    temperature := 70, relativeHumidity := 40, windSpeed := "5 mph",
    probabilityOfPrecipitation := 10 }

/-- Second period of the end-to-end example of the specification:
`startTime = 2023-01-01T01:00:00-08:00`, `temperature = 75`. -/
def examplePeriod2 : ForecastPeriod :=
  { startTime := ⟨2023, 1, 1, 1, 0, 0, -480⟩,
    temperature := 75, relativeHumidity := 60, windSpeed := "5 mph",
    probabilityOfPrecipitation := 20 }

end WeatherStealer

namespace WeatherStealer

/-- Unfolding lemma: the scan of a nonempty sequence installs the head as the
first running best (the `target == None` branch of `_process_curr_item`). -/
theorem extremumScan_cons {α : Type} (limit : String) (x : ℚ × α) (xs : List (ℚ × α)) :
    extremumScan limit (x :: xs) = extremumScanFrom limit (some x) xs := by
  obtain ⟨v, dt⟩ := x
  rfl

/-- On `limit = "MAX"` the update test of `_process_curr_item` reduces to the
strict comparison with the running best. -/
theorem process_curr_item_max {α : Type} (v : ℚ) (dt : α) (tv : ℚ) (td : α) :
    _process_curr_item v dt (some (tv, td)) "MAX" =
      if tv < v then (v, dt) else (tv, td) := by
  simp [_process_curr_item]

/-- On `limit = "MIN"` the update test of `_process_curr_item` reduces to the
strict comparison with the running best. -/
theorem process_curr_item_min {α : Type} (v : ℚ) (dt : α) (tv : ℚ) (td : α) :
    _process_curr_item v dt (some (tv, td)) "MIN" =
      if v < tv then (v, dt) else (tv, td) := by
  simp [_process_curr_item]

/-- Accumulator invariant of the MAX scan: starting from a running best `b`,
the scan returns either `b` itself (everything scanned was `≤ b`) or the first
element strictly above `b` that no earlier element of the remaining sequence
reaches and no later element exceeds. -/
theorem extremumScanFrom_max_spec {α : Type} (seq : List (ℚ × α)) (b : ℚ × α) :
    ∃ p, extremumScanFrom "MAX" (some b) seq = some p ∧
      ((p = b ∧ ∀ q ∈ seq, q.1 ≤ b.1) ∨
        ∃ l₁ l₂, seq = l₁ ++ p :: l₂ ∧ b.1 < p.1 ∧
          (∀ q ∈ l₁, q.1 < p.1) ∧ ∀ q ∈ l₂, q.1 ≤ p.1) := by
  induction seq generalizing b with
  | nil => exact ⟨b, rfl, Or.inl ⟨rfl, by simp⟩⟩
  | cons x rest ih =>
      obtain ⟨v, dt⟩ := x
      obtain ⟨bv, bd⟩ := b
      rw [extremumScanFrom, process_curr_item_max]
      by_cases h : bv < v
      · rw [if_pos h]
        obtain ⟨p, hp, hcase⟩ := ih (v, dt)
        refine ⟨p, hp, Or.inr ?_⟩
        rcases hcase with ⟨rfl, hall⟩ | ⟨l₁, l₂, hseq, hb, hbefore, hafter⟩
        · exact ⟨[], rest, rfl, h, by simp, hall⟩
        · refine ⟨(v, dt) :: l₁, l₂, by rw [hseq]; rfl, lt_trans h hb, ?_, hafter⟩
          intro q hq
          rcases List.mem_cons.mp hq with rfl | hq
          · exact hb
          · exact hbefore q hq
      · rw [if_neg h]
        obtain ⟨p, hp, hcase⟩ := ih (bv, bd)
        refine ⟨p, hp, ?_⟩
        rcases hcase with ⟨rfl, hall⟩ | ⟨l₁, l₂, hseq, hb, hbefore, hafter⟩
        · refine Or.inl ⟨rfl, ?_⟩
          intro q hq
          rcases List.mem_cons.mp hq with rfl | hq
          · exact le_of_not_lt h
          · exact hall q hq
        · refine Or.inr ⟨(v, dt) :: l₁, l₂, by rw [hseq]; rfl, hb, ?_, hafter⟩
          intro q hq
          rcases List.mem_cons.mp hq with rfl | hq
          · exact lt_of_le_of_lt (le_of_not_lt h) hb
          · exact hbefore q hq

/-- Accumulator invariant of the MIN scan, mirror image of
`extremumScanFrom_max_spec`. -/
theorem extremumScanFrom_min_spec {α : Type} (seq : List (ℚ × α)) (b : ℚ × α) :
    ∃ p, extremumScanFrom "MIN" (some b) seq = some p ∧
      ((p = b ∧ ∀ q ∈ seq, b.1 ≤ q.1) ∨
        ∃ l₁ l₂, seq = l₁ ++ p :: l₂ ∧ p.1 < b.1 ∧
          (∀ q ∈ l₁, p.1 < q.1) ∧ ∀ q ∈ l₂, p.1 ≤ q.1) := by
  induction seq generalizing b with
  | nil => exact ⟨b, rfl, Or.inl ⟨rfl, by simp⟩⟩
  | cons x rest ih =>
      obtain ⟨v, dt⟩ := x
      obtain ⟨bv, bd⟩ := b
      rw [extremumScanFrom, process_curr_item_min]
      by_cases h : v < bv
      · rw [if_pos h]
        obtain ⟨p, hp, hcase⟩ := ih (v, dt)
        refine ⟨p, hp, Or.inr ?_⟩
        rcases hcase with ⟨rfl, hall⟩ | ⟨l₁, l₂, hseq, hb, hbefore, hafter⟩
        · exact ⟨[], rest, rfl, h, by simp, hall⟩
        · refine ⟨(v, dt) :: l₁, l₂, by rw [hseq]; rfl, lt_trans hb h, ?_, hafter⟩
          intro q hq
          rcases List.mem_cons.mp hq with rfl | hq
          · exact hb
          · exact hbefore q hq
      · rw [if_neg h]
        obtain ⟨p, hp, hcase⟩ := ih (bv, bd)
        refine ⟨p, hp, ?_⟩
        rcases hcase with ⟨rfl, hall⟩ | ⟨l₁, l₂, hseq, hb, hbefore, hafter⟩
        · refine Or.inl ⟨rfl, ?_⟩
          intro q hq
          rcases List.mem_cons.mp hq with rfl | hq
          · exact le_of_not_lt h
          · exact hall q hq
        · refine Or.inr ⟨(v, dt) :: l₁, l₂, by rw [hseq]; rfl, hb, ?_, hafter⟩
          intro q hq
          rcases List.mem_cons.mp hq with rfl | hq
          · exact lt_of_lt_of_le hb (le_of_not_lt h)
          · exact hbefore q hq

/-- First-occurrence characterisation of the MAX scan on a nonempty sequence:
the result splits the sequence, dominates every element, and strictly
dominates everything scanned before it. -/
theorem extremumScan_max_first {α : Type} (seq : List (ℚ × α)) (h : seq ≠ []) :
    ∃ p l₁ l₂, extremumScan "MAX" seq = some p ∧ seq = l₁ ++ p :: l₂ ∧
      (∀ q ∈ seq, q.1 ≤ p.1) ∧ ∀ q ∈ l₁, q.1 < p.1 := by
  match seq with
  | [] => exact absurd rfl h
  | x :: xs =>
      rw [extremumScan_cons]
      obtain ⟨p, hp, hcase⟩ := extremumScanFrom_max_spec xs x
      rcases hcase with ⟨rfl, hall⟩ | ⟨l₁, l₂, hseq, hb, hbefore, hafter⟩
      · refine ⟨p, [], xs, hp, rfl, ?_, by simp⟩
        intro q hq
        rcases List.mem_cons.mp hq with rfl | hq
        · exact le_refl _
        · exact hall q hq
      · refine ⟨p, x :: l₁, l₂, hp, by rw [hseq]; rfl, ?_, ?_⟩
        · intro q hq
          rcases List.mem_cons.mp hq with rfl | hq
          · exact le_of_lt hb
          · rw [hseq] at hq
            rcases List.mem_append.mp hq with hq | hq
            · exact le_of_lt (hbefore q hq)
            · rcases List.mem_cons.mp hq with rfl | hq
              · exact le_refl _
              · exact hafter q hq
        · intro q hq
          rcases List.mem_cons.mp hq with rfl | hq
          · exact hb
          · exact hbefore q hq

/-- First-occurrence characterisation of the MIN scan on a nonempty
sequence. -/
theorem extremumScan_min_first {α : Type} (seq : List (ℚ × α)) (h : seq ≠ []) :
    ∃ p l₁ l₂, extremumScan "MIN" seq = some p ∧ seq = l₁ ++ p :: l₂ ∧
      (∀ q ∈ seq, p.1 ≤ q.1) ∧ ∀ q ∈ l₁, p.1 < q.1 := by
  match seq with
  | [] => exact absurd rfl h
  | x :: xs =>
      rw [extremumScan_cons]
      obtain ⟨p, hp, hcase⟩ := extremumScanFrom_min_spec xs x
      rcases hcase with ⟨rfl, hall⟩ | ⟨l₁, l₂, hseq, hb, hbefore, hafter⟩
      · refine ⟨p, [], xs, hp, rfl, ?_, by simp⟩
        intro q hq
        rcases List.mem_cons.mp hq with rfl | hq
        · exact le_refl _
        · exact hall q hq
      · refine ⟨p, x :: l₁, l₂, hp, by rw [hseq]; rfl, ?_, ?_⟩
        · intro q hq
          rcases List.mem_cons.mp hq with rfl | hq
          · exact le_of_lt hb
          · rw [hseq] at hq
            rcases List.mem_append.mp hq with hq | hq
            · exact le_of_lt (hbefore q hq)
            · rcases List.mem_cons.mp hq with rfl | hq
              · exact le_refl _
              · exact hafter q hq
        · intro q hq
          rcases List.mem_cons.mp hq with rfl | hq
          · exact hb
          · exact hbefore q hq

/-- C1: for every non-empty scanned window, the MAX scan returns a pair from
the sequence whose value is at least every scanned value, and the MIN scan a
pair from the sequence whose value is at most every scanned value. -/
theorem extremumScan_bounds {α : Type} (seq : List (ℚ × α)) (h : seq ≠ []) :
    (∃ p, extremumScan "MAX" seq = some p ∧ p ∈ seq ∧ ∀ q ∈ seq, q.1 ≤ p.1) ∧
    (∃ p, extremumScan "MIN" seq = some p ∧ p ∈ seq ∧ ∀ q ∈ seq, p.1 ≤ q.1) := by
  constructor
  · obtain ⟨p, l₁, l₂, hp, hseq, hall, _⟩ := extremumScan_max_first seq h
    exact ⟨p, hp, by rw [hseq]; exact List.mem_append_right l₁ (List.mem_cons_self p l₂), hall⟩
  · obtain ⟨p, l₁, l₂, hp, hseq, hall, _⟩ := extremumScan_min_first seq h
    exact ⟨p, hp, by rw [hseq]; exact List.mem_append_right l₁ (List.mem_cons_self p l₂), hall⟩

/-- Witness for C1 on the concrete window `[(5, "a"), (3, "b"), (7, "c")]`. -/
theorem extremumScan_bounds_witness :
    (∃ p, extremumScan "MAX" [((5 : ℚ), "a"), (3, "b"), (7, "c")] = some p ∧
      p ∈ [((5 : ℚ), "a"), (3, "b"), (7, "c")] ∧
      ∀ q ∈ [((5 : ℚ), "a"), (3, "b"), (7, "c")], q.1 ≤ p.1) ∧
    (∃ p, extremumScan "MIN" [((5 : ℚ), "a"), (3, "b"), (7, "c")] = some p ∧
      p ∈ [((5 : ℚ), "a"), (3, "b"), (7, "c")] ∧
      ∀ q ∈ [((5 : ℚ), "a"), (3, "b"), (7, "c")], p.1 ≤ q.1) :=
  extremumScan_bounds [((5 : ℚ), "a"), (3, "b"), (7, "c")] (by simp)

/-- C2: the scan keeps the first-encountered extremal pair — the result splits
the sequence so that every element scanned before it is strictly smaller (MAX)
or strictly larger (MIN), so a later element equal to the running best never
replaces it; in particular `[(5, t1), (5, t2)]` in MAX mode yields
`(5, t1)`. -/
theorem extremumScan_first_occurrence {α : Type} (seq : List (ℚ × α)) (h : seq ≠ []) :
    (∃ p l₁ l₂, extremumScan "MAX" seq = some p ∧ seq = l₁ ++ p :: l₂ ∧
      (∀ q ∈ seq, q.1 ≤ p.1) ∧ ∀ q ∈ l₁, q.1 < p.1) ∧
    (∃ p l₁ l₂, extremumScan "MIN" seq = some p ∧ seq = l₁ ++ p :: l₂ ∧
      (∀ q ∈ seq, p.1 ≤ q.1) ∧ ∀ q ∈ l₁, p.1 < q.1) ∧
    extremumScan "MAX" [((5 : ℚ), "t1"), (5, "t2")] = some (5, "t1") :=
  ⟨extremumScan_max_first seq h, extremumScan_min_first seq h, by decide⟩

/-- Witness for C2 on the concrete tie window `[(5, "t1"), (5, "t2")]`. -/
theorem extremumScan_first_occurrence_witness :
    ∃ p l₁ l₂, extremumScan "MAX" [((5 : ℚ), "t1"), (5, "t2")] = some p ∧
      [((5 : ℚ), "t1"), (5, "t2")] = l₁ ++ p :: l₂ ∧
      (∀ q ∈ [((5 : ℚ), "t1"), (5, "t2")], q.1 ≤ p.1) ∧ ∀ q ∈ l₁, q.1 < p.1 :=
  (extremumScan_first_occurrence [((5 : ℚ), "t1"), (5, "t2")] (by simp)).1

/-- Accumulator invariant for a limit string other than MAX and MIN: once the
running best is set it never changes, because both update conditions of
`_process_curr_item` require `limit` to equal `'MAX'` or `'MIN'`. -/
theorem extremumScanFrom_other_limit {α : Type} (limit : String)
    (h1 : limit ≠ "MAX") (h2 : limit ≠ "MIN") (seq : List (ℚ × α)) (b : ℚ × α) :
    extremumScanFrom limit (some b) seq = some b := by
  induction seq generalizing b with
  | nil => rfl
  | cons x rest ih =>
      obtain ⟨v, dt⟩ := x
      obtain ⟨bv, bd⟩ := b
      rw [extremumScanFrom]
      have : _process_curr_item v dt (some (bv, bd)) limit = (bv, bd) := by
        simp [_process_curr_item, h1, h2]
      rw [this]
      exact ih (bv, bd)

/-- C10 (implicit): for every non-empty window and every limit string other
than MAX and MIN, the scan returns the first element — it is installed because
the running best is `None`, and no later element can replace it. -/
theorem extremumScan_other_limit {α : Type} (limit : String)
    (h1 : limit ≠ "MAX") (h2 : limit ≠ "MIN") (x : ℚ × α) (xs : List (ℚ × α)) :
    extremumScan limit (x :: xs) = some x := by
  rw [extremumScan_cons]
  exact extremumScanFrom_other_limit limit h1 h2 xs x

/-- Witness for C10 with the limit string `'AVG'` on `[(1, "a"), (2, "b")]`. -/
theorem extremumScan_other_limit_witness :
    extremumScan "AVG" [((1 : ℚ), "a"), (2, "b")] = some (1, "a") :=
  extremumScan_other_limit "AVG" (by decide) (by decide) ((1 : ℚ), "a") [(2, "b")]

/-- C3: the feels-like transform selects its branch by inclusive thresholds on
the raw Fahrenheit temperature — heat index at `t ≥ 68`, wind chill at
`t ≤ 50` with wind strictly above 3 mph, the raw reading in the open band
`(50, 68)` and in the calm sub-band `t ≤ 50, w ≤ 3` — and the Celsius
conversion is applied only after this selection. -/
theorem feels_like_branch_selection (fpow016 : ℚ → ℚ) (scale : String) (t h w : ℚ) :
    (t ≥ 68 → feelsSelect fpow016 t h w = calc_heat_index t h) ∧
    (t ≤ 50 → w > 3 → feelsSelect fpow016 t h w = calc_wind_chill fpow016 t w) ∧
    (50 < t → t < 68 → feelsSelect fpow016 t h w = t) ∧
    (t ≤ 50 → w ≤ 3 → feelsSelect fpow016 t h w = t) ∧
    feelsLikeValue fpow016 scale t h w =
      (if scale = "C" then celsius (feelsSelect fpow016 t h w)
       else feelsSelect fpow016 t h w) := by
  refine ⟨?_, ?_, ?_, ?_, rfl⟩
  · intro ht
    rw [feelsSelect, if_pos ht]
  · intro ht hw
    have h68 : ¬ t ≥ 68 := by linarith
    rw [feelsSelect, if_neg h68, if_pos ⟨ht, hw⟩]
  · intro h50 h68
    have h68' : ¬ t ≥ 68 := by linarith
    have h50' : ¬ (t ≤ 50 ∧ w > 3) := fun hc => absurd h50 (not_lt.mpr hc.1)
    rw [feelsSelect, if_neg h68', if_neg h50']
  · intro ht hw
    have h68 : ¬ t ≥ 68 := by linarith
    have hc : ¬ (t ≤ 50 ∧ w > 3) := fun hc => absurd hc.2 (not_lt.mpr hw)
    rw [feelsSelect, if_neg h68, if_neg hc]

/-- Witness for C3 at the boundary inputs of the specification: `t = 68`
(heat-index branch, inclusive), `t = 50` with `w = 4` (wind-chill branch) and
`t = 60` (raw reading passed through). -/
theorem feels_like_branch_selection_witness :
    feelsSelect id 68 50 10 = calc_heat_index 68 50 ∧
    feelsSelect id 50 30 4 = calc_wind_chill id 50 4 ∧
    feelsSelect id 60 30 10 = 60 :=
  ⟨(feels_like_branch_selection id "F" 68 50 10).1 (by decide),
   (feels_like_branch_selection id "F" 50 30 4).2.1 (by decide) (by decide),
   (feels_like_branch_selection id "F" 60 30 10).2.2.1 (by decide) (by decide)⟩

/-- C4: `calc_heat_index` (a loop summing nine parts) equals the stated 9-term
polynomial, and `calc_wind_chill` (a loop summing four parts) equals the
stated closed formula, with `fpow016 w` standing for the float power
`w ** 0.16`. -/
theorem formulas_match_polynomials (fpow016 : ℚ → ℚ) (t h t2 w : ℚ) (_hw : 0 < w) :
    calc_heat_index t h =
      -42.379 + 2.04901523 * t + 10.14333127 * h - 0.22475541 * t * h
        - 0.00683783 * t ^ 2 - 0.05481717 * h ^ 2 + 0.00122874 * t ^ 2 * h
        + 0.00085282 * t * h ^ 2 - 0.00000199 * t ^ 2 * h ^ 2 ∧
    calc_wind_chill fpow016 t2 w =
      35.74 + 0.6215 * t2 - 35.75 * fpow016 w + 0.4275 * t2 * fpow016 w := by
  constructor
  · show List.foldl _ 0 _ = _
    simp only [List.foldl]
    ring
  · show List.foldl _ 0 _ = _
    simp only [List.foldl]
    ring

/-- Witness for C4 at the reference inputs `heatIndex(68, 50)` and
`windChill(50, 4)`. -/
theorem formulas_match_polynomials_witness :
    calc_heat_index 68 50 =
      -42.379 + 2.04901523 * 68 + 10.14333127 * 50 - 0.22475541 * 68 * 50
        - 0.00683783 * 68 ^ 2 - 0.05481717 * 50 ^ 2 + 0.00122874 * 68 ^ 2 * 50
        + 0.00085282 * 68 * 50 ^ 2 - 0.00000199 * 68 ^ 2 * 50 ^ 2 ∧
    calc_wind_chill id 50 4 =
      35.74 + 0.6215 * 50 - 35.75 * id (4 : ℚ) + 0.4275 * 50 * id (4 : ℚ) :=
  formulas_match_polynomials id 68 50 50 4 (by decide)

/-- C5: the two unit conversions are exact mutual inverses over exact
arithmetic: `celsius (fahrenheit x) = x` and `fahrenheit (celsius x) = x`. -/
theorem conversion_round_trip (x : ℚ) :
    celsius (fahrenheit x) = x ∧ fahrenheit (celsius x) = x := by
  constructor
  · rw [celsius, fahrenheit]; ring
  · rw [celsius, fahrenheit]; ring

/-- C6: `determine_forecast_location` collapses duplicate vertices (compared
as exact coordinate pairs) and returns the mean latitude and mean longitude of
the unique vertices, independently — it agrees with the spec-worded
`centroidOf` — and the square `[(0,0),(0,2),(2,2),(2,0)]` with the closing
duplicate `(0,0)` appended yields the centroid `(1, 1)`. -/
theorem forecast_location_is_centroid (coords : List (ℚ × ℚ)) (_h : coords ≠ []) :
    determine_forecast_location coords = centroidOf coords ∧
    determine_forecast_location [((0 : ℚ), (0 : ℚ)), (0, 2), (2, 2), (2, 0), (0, 0)] =
      (1, 1) := by
  constructor
  · rw [determine_forecast_location, centroidOf]
    have h1 : ∀ f : ℚ × ℚ → ℚ, coords.toFinset.sum f = (coords.dedup.map f).sum := by
      intro f
      rw [← List.sum_toFinset f (List.nodup_dedup coords)]
      congr 1
      apply Finset.ext
      intro a
      simp
    rw [h1, h1, List.card_toFinset]
  · have hd : ([((0 : ℚ), (0 : ℚ)), (0, 2), (2, 2), (2, 0), (0, 0)]).dedup =
        [(0, 2), (2, 2), (2, 0), (0, 0)] := by decide
    rw [determine_forecast_location]
    simp only [hd, List.map, List.sum_cons, List.sum_nil, List.length]
    norm_num

/-- Witness for C6 on the square polygon with the closing duplicate vertex. -/
theorem forecast_location_is_centroid_witness :
    determine_forecast_location [((0 : ℚ), (0 : ℚ)), (0, 2), (2, 2), (2, 0), (0, 0)] =
      centroidOf [((0 : ℚ), (0 : ℚ)), (0, 2), (2, 2), (2, 0), (0, 0)] :=
  (forecast_location_is_centroid
    [((0 : ℚ), (0 : ℚ)), (0, 2), (2, 2), (2, 0), (0, 0)] (by simp)).1

/-- A scan over a nonempty sequence always produces a result, whatever the
limit string and the starting accumulator. -/
theorem extremumScanFrom_isSome {α : Type} (limit : String) (seq : List (ℚ × α))
    (acc : Option (ℚ × α)) (h : seq ≠ [] ∨ acc.isSome) :
    (extremumScanFrom limit acc seq).isSome := by
  induction seq generalizing acc with
  | nil =>
      rcases h with h | h
      · exact absurd rfl h
      · exact h
  | cons x rest ih =>
      obtain ⟨v, dt⟩ := x
      rw [extremumScanFrom]
      exact ih (some (_process_curr_item v dt acc limit)) (Or.inr rfl)

/-- Mapping a metric extractor over a clamped nonempty window yields a
nonempty scan input. -/
theorem take_map_ne_nil {β : Type} (f : ForecastPeriod → β)
    (data : List ForecastPeriod) (n : Nat) (hpos : 0 < n) (hne : data ≠ []) :
    (data.take n).map f ≠ [] := by
  have h1 : data.take n ≠ [] := by
    intro hempty
    have h2 := List.length_take n data
    rw [hempty] at h2
    simp only [List.length_nil] at h2
    have h3 : 0 < data.length := List.length_pos.mpr hne
    omega
  simpa [List.map_eq_nil_iff] using h1

/-- A scan over a nonempty sequence yields a result. -/
theorem extremumScan_ne_nil_eq_some {α : Type} (limit : String)
    (seq : List (ℚ × α)) (hne : seq ≠ []) :
    ∃ p, extremumScan limit seq = some p := by
  have hs := extremumScanFrom_isSome limit seq none (Or.inl hne)
  obtain ⟨p, hp⟩ := Option.isSome_iff_exists.mp hs
  exact ⟨p, hp⟩

/-- C7: for every query — all five kinds dispatched by `_get_query_results` —
the scanned window length is clamped to `min(requested, available)` before the
scan is invoked, so the scan never indexes past the end of the period
sequence; for every requested length at least the available count each query
kind returns exactly the result over the available periods; and on a nonempty
forecast with a positive request the clamped query still yields a result
rather than surfacing an error (shown for the three kinds whose pipeline has
no wind-string parsing). -/
theorem query_window_clamped (fpow016 : ℚ → ℚ) (forecastData : List ForecastPeriod)
    (scale limit : String) (requested : Nat) :
    min requested (_available_num_of_time_periods forecastData) ≤ forecastData.length ∧
    (_available_num_of_time_periods forecastData ≤ requested →
      (airTemperatureQuery forecastData scale requested limit =
        air_temperature forecastData scale
          (_available_num_of_time_periods forecastData) limit) ∧
      (feelsLikeTemperatureQuery fpow016 forecastData scale requested limit =
        feels_like_temperature fpow016 forecastData scale
          (_available_num_of_time_periods forecastData) limit) ∧
      (humidityQuery forecastData requested limit =
        humidity forecastData (_available_num_of_time_periods forecastData) limit) ∧
      (windSpeedQuery forecastData requested limit =
        wind_speed forecastData (_available_num_of_time_periods forecastData) limit) ∧
      (precipitationQuery forecastData requested limit =
        chance_of_precipitation forecastData
          (_available_num_of_time_periods forecastData) limit)) ∧
    (1 ≤ requested → forecastData ≠ [] →
      (airTemperatureQuery forecastData scale requested limit).isSome ∧
      (humidityQuery forecastData requested limit).isSome ∧
      (precipitationQuery forecastData requested limit).isSome) := by
  refine ⟨min_le_right _ _, ?_, ?_⟩
  · intro hle
    rw [airTemperatureQuery, feelsLikeTemperatureQuery, humidityQuery, windSpeedQuery,
      precipitationQuery, min_eq_right hle]
    exact ⟨rfl, rfl, rfl, rfl, rfl⟩
  · intro hreq hne
    have hlen : min requested (_available_num_of_time_periods forecastData) ≤
        forecastData.length := min_le_right _ _
    have hpos : 0 < min requested (_available_num_of_time_periods forecastData) := by
      have h3 : 0 < forecastData.length := List.length_pos.mpr hne
      exact lt_min (lt_of_lt_of_le Nat.zero_lt_one hreq) h3
    refine ⟨?_, ?_, ?_⟩
    · obtain ⟨⟨v, dt⟩, hr⟩ := extremumScan_ne_nil_eq_some limit
        ((forecastData.take
          (min requested (_available_num_of_time_periods forecastData))).map
            (fun p => ((if scale = "C" then celsius p.temperature else p.temperature),
              p.startTime)))
        (take_map_ne_nil _ forecastData _ hpos hne)
      rw [airTemperatureQuery, air_temperature, if_pos hlen, hr]
      rfl
    · obtain ⟨⟨v, dt⟩, hr⟩ := extremumScan_ne_nil_eq_some limit
        ((forecastData.take
          (min requested (_available_num_of_time_periods forecastData))).map
            (fun p => (p.relativeHumidity, p.startTime)))
        (take_map_ne_nil _ forecastData _ hpos hne)
      rw [humidityQuery, humidity, if_pos hlen, hr]
      rfl
    · obtain ⟨⟨v, dt⟩, hr⟩ := extremumScan_ne_nil_eq_some limit
        ((forecastData.take
          (min requested (_available_num_of_time_periods forecastData))).map
            (fun p => (p.probabilityOfPrecipitation, p.startTime)))
        (take_map_ne_nil _ forecastData _ hpos hne)
      rw [precipitationQuery, chance_of_precipitation, if_pos hlen, hr]
      rfl

/-- Witness for C7 on a one-period forecast with an over-long request of 5,
exercising the over-request equalities for all five query kinds and the
no-error conclusion. -/
theorem query_window_clamped_witness :
    ((airTemperatureQuery [examplePeriod1] "F" 5 "MAX" =
        air_temperature [examplePeriod1] "F"
          (_available_num_of_time_periods [examplePeriod1]) "MAX") ∧
      (feelsLikeTemperatureQuery id [examplePeriod1] "F" 5 "MAX" =
        feels_like_temperature id [examplePeriod1] "F"
          (_available_num_of_time_periods [examplePeriod1]) "MAX") ∧
      (humidityQuery [examplePeriod1] 5 "MAX" =
        humidity [examplePeriod1] (_available_num_of_time_periods [examplePeriod1]) "MAX") ∧
      (windSpeedQuery [examplePeriod1] 5 "MAX" =
        wind_speed [examplePeriod1]
          (_available_num_of_time_periods [examplePeriod1]) "MAX") ∧
      (precipitationQuery [examplePeriod1] 5 "MAX" =
        chance_of_precipitation [examplePeriod1]
          (_available_num_of_time_periods [examplePeriod1]) "MAX")) ∧
    (airTemperatureQuery [examplePeriod1] "F" 5 "MAX").isSome ∧
    (humidityQuery [examplePeriod1] 5 "MAX").isSome ∧
    (precipitationQuery [examplePeriod1] 5 "MAX").isSome :=
  ⟨(query_window_clamped id [examplePeriod1] "F" "MAX" 5).2.1 (by decide),
   (query_window_clamped id [examplePeriod1] "F" "MAX" 5).2.2 (by decide) (by decide)⟩

/-- Evaluation lemma: `float('33.5')` parses to the exact rational `33.5`. -/
theorem parseDecimal_33_5 : parseDecimal "33.5" = some 33.5 := by
  have h1 : "33.5".data = ['3', '3', '.', '5'] := by decide
  rw [parseDecimal, h1]
  have hneg : decide (List.head? ['3', '3', '.', '5'] = some '-') = false := by decide
  have ht : List.takeWhile Char.isDigit ['3', '3', '.', '5'] = ['3', '3'] := by decide
  have hd : List.dropWhile Char.isDigit ['3', '3', '.', '5'] = ['.', '5'] := by decide
  have hn1 : natOfDigits ['3', '3'] = 33 := by decide
  have hn2 : natOfDigits ['5'] = 5 := by decide
  simp only [hneg, ht, hd, Bool.false_eq_true, if_false]
  rw [if_pos (by decide)]
  norm_num [hn1, hn2]

/-- Evaluation lemma: `float('-117.25')` parses to the exact rational
`-117.25`. -/
theorem parseDecimal_neg117_25 : parseDecimal "-117.25" = some (-117.25) := by
  have h1 : "-117.25".data = ['-', '1', '1', '7', '.', '2', '5'] := by decide
  rw [parseDecimal, h1]
  have hneg : decide (List.head? ['-', '1', '1', '7', '.', '2', '5'] = some '-') = true := by
    decide
  have ht : List.takeWhile Char.isDigit ['1', '1', '7', '.', '2', '5'] = ['1', '1', '7'] := by
    decide
  have hd : List.dropWhile Char.isDigit ['1', '1', '7', '.', '2', '5'] = ['.', '2', '5'] := by
    decide
  have hn1 : natOfDigits ['1', '1', '7'] = 117 := by decide
  have hn2 : natOfDigits ['2', '5'] = 25 := by decide
  simp only [hneg, ht, hd, if_true, List.tail]
  rw [if_pos (by decide)]
  norm_num [hn1, hn2]

/-- C8 counterexample: on the empty geocode result sequence the code raises
`IndexError` from `geocoding_data[0]` — a failure, but not the `NotFoundError`
the claim names (no code path raises such an error). -/
theorem geocode_empty_counterexample :
    get_latitude_and_longitude [] = Except.error PyError.indexError ∧
    PyError.indexError ≠ PyError.notFoundError :=
  ⟨rfl, by decide⟩

/-- C8 (amended): for every empty geocode result sequence the extraction fails
with an (unhandled) `IndexError` rather than returning a point, and for every
non-empty sequence it returns the latitude and longitude of the first element,
coerced to numbers by `float()`; concretely, the entry with string fields
`'33.5'` / `'-117.25'` yields the point `(33.5, -117.25)`. -/
theorem geocode_first_point (geocodingData : List GeocodeEntry) :
    (geocodingData = [] →
      get_latitude_and_longitude geocodingData = Except.error PyError.indexError) ∧
    (∀ e rest, geocodingData = e :: rest →
      get_latitude_and_longitude geocodingData =
        (pyFloat e.lat).bind fun latitude =>
          (pyFloat e.lon).map fun longitude => (latitude, longitude)) ∧
    get_latitude_and_longitude [⟨JVal.str "33.5", JVal.str "-117.25"⟩] =
      Except.ok ((33.5 : ℚ), (-117.25 : ℚ)) := by
  refine ⟨?_, ?_, ?_⟩
  · rintro rfl
    rfl
  · rintro e rest rfl
    rw [get_latitude_and_longitude]
    cases hla : pyFloat e.lat with
    | error err => simp [Except.bind, hla]
    | ok la =>
        cases hlo : pyFloat e.lon with
        | error err => simp [Except.bind, Except.map, hla, hlo]
        | ok lo => simp [Except.bind, Except.map, hla, hlo]
  · rw [get_latitude_and_longitude]
    show (match pyFloat (JVal.str "33.5") with
      | Except.error err => Except.error err
      | Except.ok latitude =>
          match pyFloat (JVal.str "-117.25") with
          | Except.error err => Except.error err
          | Except.ok longitude => Except.ok (latitude, longitude)) = _
    rw [show pyFloat (JVal.str "33.5") = Except.ok (33.5 : ℚ) by
        rw [pyFloat, parseDecimal_33_5],
      show pyFloat (JVal.str "-117.25") = Except.ok ((-117.25 : ℚ)) by
        rw [pyFloat, parseDecimal_neg117_25]]

/-- Witness for C8 (amended) at the empty list and at a singleton geocode
result whose coordinates are decimal strings. -/
theorem geocode_first_point_witness :
    get_latitude_and_longitude [] = Except.error PyError.indexError ∧
    get_latitude_and_longitude [⟨JVal.str "33.5", JVal.str "-117.25"⟩] =
      ((pyFloat (JVal.str "33.5")).bind fun latitude =>
        (pyFloat (JVal.str "-117.25")).map fun longitude => (latitude, longitude)) :=
  ⟨(geocode_first_point []).1 rfl,
   (geocode_first_point [⟨JVal.str "33.5", JVal.str "-117.25"⟩]).2.1
     ⟨JVal.str "33.5", JVal.str "-117.25"⟩ [] rfl⟩

/-- Rounding a rational that is already an integer changes nothing. -/
theorem roundHalfEven_intCast (n : Int) : roundHalfEven ((n : ℚ)) = n := by
  rw [roundHalfEven]
  simp only [Int.floor_intCast, sub_self]
  norm_num

/-- Evaluation lemma: the `:.4f` format renders `75` as `75.0000`. -/
theorem formatVal_75 : formatVal 75 = "75.0000" := by
  rw [formatVal]
  have h1 : |(75 : ℚ)| * 10000 = ((750000 : Int) : ℚ) := by norm_num
  rw [h1, roundHalfEven_intCast, if_neg (by norm_num : ¬ ((75 : ℚ) < 0))]
  decide

/-- Every character `frac4` produces is a decimal digit. -/
theorem digitChar_isDigit (n : Nat) : (digitChar n).isDigit := by
  rw [digitChar]
  have h : n % 10 < 10 := Nat.mod_lt _ (by decide)
  have hall : ∀ m < 10, (Char.ofNat (48 + m)).isDigit := by decide
  exact hall (n % 10) h

/-- The fractional block of the `:.4f` format is exactly four digit
characters. -/
theorem frac4_shape (k : Nat) : (frac4 k).length = 4 ∧ (frac4 k).data.all Char.isDigit := by
  constructor
  · rw [frac4, String.length_mk]
    rfl
  · rw [frac4]
    simp [List.all, digitChar_isDigit]

/-- The humidity query renders its scan winner as the UTC timestamp, a space,
the `:.4f` value and a literal `%`. -/
theorem humidity_format (data : List ForecastPeriod) (len : Nat) (limit : String)
    (v : ℚ) (dt : OffsetDateTime) (hlen : len ≤ data.length)
    (hscan : extremumScan limit ((data.take len).map fun p => (p.relativeHumidity, p.startTime))
      = some (v, dt)) :
    humidity data len limit = some (_datetime_to_utc dt ++ " " ++ formatVal v ++ "%") := by
  rw [humidity, if_pos hlen, hscan]

/-- The precipitation query renders its scan winner as the UTC timestamp, a
space, the `:.4f` value and a literal `%`. -/
theorem chance_of_precipitation_format (data : List ForecastPeriod) (len : Nat)
    (limit : String) (v : ℚ) (dt : OffsetDateTime) (hlen : len ≤ data.length)
    (hscan : extremumScan limit
        ((data.take len).map fun p => (p.probabilityOfPrecipitation, p.startTime))
      = some (v, dt)) :
    chance_of_precipitation data len limit =
      some (_datetime_to_utc dt ++ " " ++ formatVal v ++ "%") := by
  rw [chance_of_precipitation, if_pos hlen, hscan]

/-- C9: the rendered timestamp depends only on the instant (so it is the UTC
normalisation of the source timestamp, whatever its offset); the value block
has exactly four decimal digits after the dot; humidity and precipitation
queries append a literal `%`; and the AIR MAX query over the two example
periods (offset `-08:00`, temperatures 70 and 75) returns
`2023-01-01T09:00:00Z 75.0000`. -/
theorem utc_output_format :
    (∀ dt1 dt2 : OffsetDateTime, epochSeconds dt1 = epochSeconds dt2 →
      _datetime_to_utc dt1 = _datetime_to_utc dt2) ∧
    (∀ q : ℚ, ∃ s k, formatVal q = s ++ "." ++ frac4 k ∧ (frac4 k).length = 4 ∧
      (frac4 k).data.all Char.isDigit) ∧
    (∀ data len limit v dt, len ≤ List.length data →
      extremumScan limit ((data.take len).map fun p => (p.relativeHumidity, p.startTime))
        = some (v, dt) →
      humidity data len limit = some (_datetime_to_utc dt ++ " " ++ formatVal v ++ "%")) ∧
    (∀ data len limit v dt, len ≤ List.length data →
      extremumScan limit
          ((data.take len).map fun p => (p.probabilityOfPrecipitation, p.startTime))
        = some (v, dt) →
      chance_of_precipitation data len limit =
        some (_datetime_to_utc dt ++ " " ++ formatVal v ++ "%")) ∧
    air_temperature [examplePeriod1, examplePeriod2] "F" 2 "MAX" =
      some "2023-01-01T09:00:00Z 75.0000" := by
  refine ⟨?_, ?_, humidity_format, chance_of_precipitation_format, ?_⟩
  · intro dt1 dt2 h
    simp only [_datetime_to_utc, h]
  · intro q
    refine ⟨(if q < 0 then "-" else "") ++
      toString ((roundHalfEven (|q| * 10000)).toNat / 10000),
      (roundHalfEven (|q| * 10000)).toNat % 10000, ?_, frac4_shape _⟩
    rw [formatVal]
  · rw [air_temperature,
      if_pos (by decide : 2 ≤ List.length [examplePeriod1, examplePeriod2])]
    have hscan : extremumScan "MAX" (([examplePeriod1, examplePeriod2].take 2).map
        (fun p => ((if "F" = "C" then celsius p.temperature else p.temperature),
          p.startTime))) = some (75, examplePeriod2.startTime) := by decide
    rw [hscan]
    simp only [formatVal_75]
    decide

/-- Witness for C9: two timestamps denoting the same instant (one at `-08:00`,
one at UTC) render identically, and a concrete humidity query renders with the
`%` suffix. -/
theorem utc_output_format_witness :
    _datetime_to_utc ⟨2023, 1, 1, 1, 0, 0, -480⟩ =
      _datetime_to_utc ⟨2023, 1, 1, 9, 0, 0, 0⟩ ∧
    humidity [examplePeriod1, examplePeriod2] 2 "MAX" =
      some (_datetime_to_utc examplePeriod2.startTime ++ " " ++ formatVal 60 ++ "%") :=
  ⟨utc_output_format.1 ⟨2023, 1, 1, 1, 0, 0, -480⟩ ⟨2023, 1, 1, 9, 0, 0, 0⟩ (by decide),
   utc_output_format.2.2.1 [examplePeriod1, examplePeriod2] 2 "MAX" 60
     examplePeriod2.startTime (by decide) (by decide)⟩

end WeatherStealer
